import Mathlib

/-
Verification of the Super-Snake grid-game logic.

The development shallowly embeds the game-loop state logic of the two
source variants, `super_snake.py` and `super_snake_V1.1.py`:

* positions are integer pairs, the grid is `GRID_WIDTH × GRID_HEIGHT`;
* the snake is a list of positions, tail first, head last, exactly as in
  the Python lists;
* the implicit random stream of `random.randint` draws is made explicit
  as a list of candidate positions handed to the food-placement function,
  which returns `none` when the rejection loop never exits within the
  supplied draws;
* one iteration of the movement/collision update (`tick`, `tickV11`) and
  the restart handler are explicit state transformers;
* the V1.1 screen-shake arithmetic is modelled over the rationals, with
  Python `int(...)` as truncation toward zero.
-/

namespace SuperSnake

/-- A grid position, an integer pair `(x, y)`. -/
abbrev Pos := Int × Int

/-- `GRID_WIDTH = 30` in both source files. -/
def GRID_WIDTH : Int := 30

/-- `GRID_HEIGHT = 30` in both source files. -/
def GRID_HEIGHT : Int := 30

/-- `random_food_position(snake)` / `random_food(snake)`: the rejection
loop `while True: pos = (randint …, randint …); if pos not in snake: return pos`,
determinized by the explicit draw stream `draws`.  The result is the first
draw that is not occupied by the snake; `none` means the loop has not
returned within the supplied draws. -/
def random_food_position (draws : List Pos) (snake : List Pos) : Option Pos :=
  draws.find? (fun p => decide (p ∉ snake))

/-- The mutable game-loop state of `super_snake.py`: snake body (head is
the last element), committed and pending direction, food cell, score, and
the game-over flag. -/
structure GameState where
  snake : List Pos
  direction : Pos
  next_direction : Pos
  food : Pos
  score : Nat
  game_over : Bool
  deriving DecidableEq

/-- The direction-commit step at the top of the update:
`if (next_direction[0] * -1, next_direction[1] * -1) != direction: direction = next_direction`. -/
def effDir (direction next_direction : Pos) : Pos :=
  if (next_direction.1 * -1, next_direction.2 * -1) ≠ direction then next_direction
  else direction

/-- `snake[-1]`, the head of the snake (head is the last list element). -/
def headOf (snake : List Pos) : Pos :=
  snake.getLast?.getD (0, 0)

/-- `new_head = (head_x + direction[0], head_y + direction[1])`. -/
def newHeadOf (snake : List Pos) (dir : Pos) : Pos :=
  ((headOf snake).1 + dir.1, (headOf snake).2 + dir.2)

/-- One `super_snake.py` movement/collision update (the `if not game_over:`
block, lines 119–141): commit the direction unless it reverses, compute the
new head, check walls then self-collision, otherwise append the head and
either grow (head on food: keep tail, bump score, resample food) or advance
(pop the tail).  `none` means the food-resampling loop did not return within
`draws`. -/
def tick (s : GameState) (draws : List Pos) : Option GameState :=
  if s.game_over then some s
  else
    let dir := effDir s.direction s.next_direction
    let new_head := newHeadOf s.snake dir
    if ¬((0 ≤ new_head.1 ∧ new_head.1 < GRID_WIDTH) ∧
         (0 ≤ new_head.2 ∧ new_head.2 < GRID_HEIGHT)) then
      some { s with direction := dir, game_over := true }
    else if new_head ∈ s.snake then
      some { s with direction := dir, game_over := true }
    else
      let snake' := s.snake ++ [new_head]
      if new_head = s.food then
        match random_food_position draws snake' with
        | none => none
        | some f =>
            some { s with snake := snake', direction := dir,
                          food := f, score := s.score + 1 }
      else
        some { s with snake := snake'.drop 1, direction := dir }

/-- The initial snake of `super_snake.py`:
`[(GRID_WIDTH // 2 + i, GRID_HEIGHT // 2) for i in range(3)][::-1]`. -/
def initSnake : List Pos :=
  (((List.range 3).map
      (fun i => ((GRID_WIDTH / 2 + (i : Int), GRID_HEIGHT / 2) : Pos)))).reverse

/-- The initial game state of `super_snake.py` with food cell `f`:
snake `initSnake`, direction `(-1, 0)` (moving left), score `0`. -/
def initState (f : Pos) : GameState :=
  { snake := initSnake, direction := (-1, 0), next_direction := (-1, 0),
    food := f, score := 0, game_over := false }

/-- The `K_r` handler of `super_snake.py` (lines 107–114): reinitialize
everything, but only when `game_over` holds; otherwise the key press falls
through and the state is untouched. -/
def restart (s : GameState) (draws : List Pos) : Option GameState :=
  if s.game_over then
    match random_food_position draws initSnake with
    | none => none
    | some f => some (initState f)
  else some s

/-- The keys the event loop reacts to when folding the pending direction;
`other` stands for any key with no direction attached. -/
inductive Key where
  | up
  | down
  | left
  | right
  | other
  deriving DecidableEq

/-- The grid vector a directional key requests ( `(0, 0)` for `other`). -/
def dirOf (k : Key) : Pos :=
  match k with
  | .up => (0, -1)
  | .down => (0, 1)
  | .left => (-1, 0)
  | .right => (1, 0)
  | .other => (0, 0)

/-- One `KEYDOWN` event of `super_snake.py` (lines 92–100): a directional
key overwrites `next_direction` unconditionally; any other key leaves it. -/
def keyStepV1 (nd : Pos) (k : Key) : Pos :=
  match k with
  | .up => (0, -1)
  | .down => (0, 1)
  | .left => (-1, 0)
  | .right => (1, 0)
  | .other => nd

/-- Draining one frame's event batch in `super_snake.py`: fold the events
in arrival order over `next_direction`. -/
def pendingV1 (ks : List Key) (nd : Pos) : Pos :=
  ks.foldl keyStepV1 nd

/-- One `KEYDOWN` event of `super_snake_V1.1.py` (lines 152–160): a
directional key overwrites `next_direction` only when the committed
`direction` is not the exact reverse of the requested vector
(`if direction != (0, 1): next_direction = (0, -1)` and so on). -/
def keyStepV11 (direction : Pos) (nd : Pos) (k : Key) : Pos :=
  match k with
  | .up => if direction ≠ (0, 1) then (0, -1) else nd
  | .down => if direction ≠ (0, -1) then (0, 1) else nd
  | .left => if direction ≠ (1, 0) then (-1, 0) else nd
  | .right => if direction ≠ (-1, 0) then (1, 0) else nd
  | .other => nd

/-- Draining one frame's event batch in `super_snake_V1.1.py`; the
committed `direction` is constant across the batch (only `next_direction`
is written by the handlers). -/
def pendingV11 (direction : Pos) (ks : List Key) (nd : Pos) : Pos :=
  ks.foldl (keyStepV11 direction) nd

/-- The collision flag of `super_snake.py` (lines 128–133): wall bounds
first, then membership in the (pre-pop) snake. -/
def collisionV1 (new_head : Pos) (snake : List Pos) : Bool :=
  if ¬((0 ≤ new_head.1 ∧ new_head.1 < GRID_WIDTH) ∧
       (0 ≤ new_head.2 ∧ new_head.2 < GRID_HEIGHT)) then true
  else if new_head ∈ snake then true
  else false

/-- The collision flag of `super_snake_V1.1.py` (line 182):
`(new_head in snake) or not (0 <= x < W) or not (0 <= y < H)`. -/
def collisionV11 (new_head : Pos) (snake : List Pos) : Bool :=
  decide (new_head ∈ snake) ||
  !decide (0 ≤ new_head.1 ∧ new_head.1 < GRID_WIDTH) ||
  !decide (0 ≤ new_head.2 ∧ new_head.2 < GRID_HEIGHT)

/-- The reachable states of the `super_snake.py` loop: the initial state
(for any draw stream whose food placement returns), closed under ticks,
restarts, and event-batch updates of the pending direction. -/
inductive Reachable : GameState → Prop where
  | init : ∀ (draws : List Pos) (f : Pos),
      random_food_position draws initSnake = some f → Reachable (initState f)
  | tick_step : ∀ (s s' : GameState) (draws : List Pos),
      Reachable s → tick s draws = some s' → Reachable s'
  | restart_step : ∀ (s s' : GameState) (draws : List Pos),
      Reachable s → restart s draws = some s' → Reachable s'
  | key_step : ∀ (s : GameState) (ks : List Key),
      Reachable s →
      Reachable { s with next_direction := pendingV1 ks s.next_direction }

/-- The invariant of claim C5: all segments in bounds and pairwise
distinct. -/
def SnakeInv (l : List Pos) : Prop :=
  (∀ p ∈ l, (0 ≤ p.1 ∧ p.1 < GRID_WIDTH) ∧ (0 ≤ p.2 ∧ p.2 < GRID_HEIGHT)) ∧
  l.Nodup

/-- The list of all `GRID_WIDTH × GRID_HEIGHT` grid cells: a snake
occupying every cell of the 30×30 grid. -/
def fullGrid : List Pos :=
  (List.range 30).flatMap
    (fun (x : Nat) =>
      (List.range 30).map (fun (y : Nat) => (((x : Int), (y : Int)) : Pos)))

/-- A concrete in-play state of `super_snake.py`: a four-segment snake
bent into a 2×2 square (tail `(5,5)` first, head `(6,5)` last), committed
direction up, pending direction left, food away at `(0, 0)`. -/
def c1State : GameState :=
  { snake := [(5, 5), (5, 6), (6, 6), (6, 5)], direction := (0, -1),
    next_direction := (-1, 0), food := (0, 0), score := 0, game_over := false }

/-- The mutable game-loop state of `super_snake_V1.1.py`: the grid logic
plus the remaining screen-shake time in seconds. -/
structure GameStateV11 where
  snake : List Pos
  direction : Pos
  next_direction : Pos
  food : Pos
  score : Nat
  game_over : Bool
  shake_time : ℚ
  deriving DecidableEq

/-- `SHAKE_DURATION = 0.3` seconds. -/
def SHAKE_DURATION : ℚ := 3 / 10

/-- `SHAKE_INTENSITY = 100` pixels. -/
def SHAKE_INTENSITY : ℚ := 100

/-- The initial snake of `super_snake_V1.1.py`:
`[(GRID_WIDTH//2 - 1, GRID_HEIGHT//2), (GRID_WIDTH//2, GRID_HEIGHT//2)]`. -/
def initSnakeV11 : List Pos :=
  [(GRID_WIDTH / 2 - 1, GRID_HEIGHT / 2), (GRID_WIDTH / 2, GRID_HEIGHT / 2)]

/-- One `super_snake_V1.1.py` movement/collision update (the
`if not game_over:` block, lines 173–199): same structure as `tick`, with
the combined collision test of line 182 and the shake timer reset to
`SHAKE_DURATION` on an eat tick. -/
def tickV11 (s : GameStateV11) (draws : List Pos) : Option GameStateV11 :=
  if s.game_over then some s
  else
    let dir := effDir s.direction s.next_direction
    let new_head := newHeadOf s.snake dir
    if new_head ∈ s.snake ∨ ¬(0 ≤ new_head.1 ∧ new_head.1 < GRID_WIDTH) ∨
       ¬(0 ≤ new_head.2 ∧ new_head.2 < GRID_HEIGHT) then
      some { s with direction := dir, game_over := true }
    else
      let snake' := s.snake ++ [new_head]
      if new_head = s.food then
        match random_food_position draws snake' with
        | none => none
        | some f =>
            some { s with snake := snake', direction := dir, food := f,
                          score := s.score + 1, shake_time := SHAKE_DURATION }
      else
        some { s with snake := snake'.drop 1, direction := dir }

/-- Python `int(q)`: truncation toward zero. -/
def truncQ (q : ℚ) : Int :=
  if 0 ≤ q then ⌊q⌋ else ⌈q⌉

/-- `amp = shake_intensity * (0.12)` (line 209); the unused
`frac = shake_time / shake_duration` of line 207 does not enter it. -/
def shakeAmp : ℚ :=
  SHAKE_INTENSITY * (12 / 100)

/-- The shake decay of lines 202–203:
`if shake_time > 0: shake_time = max(0.0, shake_time - dt)`. -/
def shakeDecay (shake_time dt : ℚ) : ℚ :=
  if 0 < shake_time then max 0 (shake_time - dt) else shake_time

/-- One shake offset component (lines 206–214): while the remaining time
is positive, `int(uniform * amp)` for a uniform draw `r`; otherwise `0`. -/
def shakeOffset (shake_time : ℚ) (r : ℚ) : Int :=
  if 0 < shake_time then truncQ (r * shakeAmp) else 0

/-- One full `super_snake_V1.1.py` frame after the event loop: the grid
update `tickV11`, then the shake decay, then the two pixel offsets from
the frame's uniform draws `rx`, `ry`; the offsets are only handed to the
renderer blit. -/
def frameV11 (s : GameStateV11) (draws : List Pos) (dt rx ry : ℚ) :
    Option (GameStateV11 × Int × Int) :=
  match tickV11 s draws with
  | none => none
  | some s1 =>
      let t := shakeDecay s1.shake_time dt
      some ({ s1 with shake_time := t }, shakeOffset t rx, shakeOffset t ry)

/-- The C1 square-snake state for the V1.1 variant (shake timer at 0). -/
def c1StateV11 : GameStateV11 :=
  { snake := [(5, 5), (5, 6), (6, 6), (6, 5)], direction := (0, -1),
    next_direction := (-1, 0), food := (0, 0), score := 0, game_over := false,
    shake_time := 0 }

/-- A concrete in-play state used to instantiate direction claims: moving
right with a pending left (the exact reverse). -/
def c4State : GameState :=
  { snake := [(3, 3)], direction := (1, 0), next_direction := (-1, 0),
    food := (0, 0), score := 0, game_over := false }

/-- A concrete game-over state used to instantiate the restart claim. -/
def c6State : GameState :=
  { snake := [(1, 1)], direction := (0, 1), next_direction := (0, 1),
    food := (2, 2), score := 5, game_over := true }

/-- A concrete in-play state one step from the left wall, heading left. -/
def c3State : GameState :=
  { snake := [(0, 5)], direction := (-1, 0), next_direction := (-1, 0),
    food := (9, 9), score := 2, game_over := false }

/-- A concrete in-play state about to eat: head `(5,5)` moving right,
food at `(6,5)`. -/
def c2State : GameState :=
  { snake := [(5, 5)], direction := (1, 0), next_direction := (1, 0),
    food := (6, 5), score := 0, game_over := false }

/-! ### Characterisation lemmas for one `super_snake.py` update -/

/-- When the game is over, the update block is skipped and the state is
returned unchanged. -/
theorem tick_of_gameOver (s : GameState) (draws : List Pos)
    (h : s.game_over = true) : tick s draws = some s := by
  simp [tick, h]

/-- On a wall or self collision, the update only sets `game_over` (after
the direction commit); snake, food and score are untouched. -/
theorem tick_of_collision (s : GameState) (draws : List Pos)
    (hg : s.game_over = false)
    (hcol : ¬((0 ≤ (newHeadOf s.snake (effDir s.direction s.next_direction)).1 ∧
               (newHeadOf s.snake (effDir s.direction s.next_direction)).1 < GRID_WIDTH) ∧
              (0 ≤ (newHeadOf s.snake (effDir s.direction s.next_direction)).2 ∧
               (newHeadOf s.snake (effDir s.direction s.next_direction)).2 < GRID_HEIGHT)) ∨
           newHeadOf s.snake (effDir s.direction s.next_direction) ∈ s.snake) :
    tick s draws =
      some { s with direction := effDir s.direction s.next_direction,
                    game_over := true } := by
  simp only [tick, hg, Bool.false_eq_true, if_false]
  by_cases hb : ((0 ≤ (newHeadOf s.snake (effDir s.direction s.next_direction)).1 ∧
                  (newHeadOf s.snake (effDir s.direction s.next_direction)).1 < GRID_WIDTH) ∧
                 (0 ≤ (newHeadOf s.snake (effDir s.direction s.next_direction)).2 ∧
                  (newHeadOf s.snake (effDir s.direction s.next_direction)).2 < GRID_HEIGHT))
  · rw [if_neg (not_not_intro hb), if_pos (hcol.resolve_left (not_not_intro hb))]
  · rw [if_pos hb]

/-- On a collision-free eating move, the head is appended, the tail kept,
the score bumped and the food replaced by the first free draw. -/
theorem tick_of_eat (s : GameState) (draws : List Pos) (f : Pos)
    (hg : s.game_over = false)
    (hb : (0 ≤ (newHeadOf s.snake (effDir s.direction s.next_direction)).1 ∧
           (newHeadOf s.snake (effDir s.direction s.next_direction)).1 < GRID_WIDTH) ∧
          (0 ≤ (newHeadOf s.snake (effDir s.direction s.next_direction)).2 ∧
           (newHeadOf s.snake (effDir s.direction s.next_direction)).2 < GRID_HEIGHT))
    (hm : newHeadOf s.snake (effDir s.direction s.next_direction) ∉ s.snake)
    (hf : newHeadOf s.snake (effDir s.direction s.next_direction) = s.food)
    (hfind : random_food_position draws
        (s.snake ++ [newHeadOf s.snake (effDir s.direction s.next_direction)]) = some f) :
    tick s draws =
      some { s with
               snake := s.snake ++ [newHeadOf s.snake (effDir s.direction s.next_direction)],
               direction := effDir s.direction s.next_direction,
               food := f, score := s.score + 1 } := by
  simp only [tick, hg, Bool.false_eq_true, if_false]
  rw [if_neg (not_not_intro hb), if_neg hm, if_pos hf, hfind]

/-- On a collision-free non-eating move, the head is appended and the tail
popped; food and score are untouched. -/
theorem tick_of_advance (s : GameState) (draws : List Pos)
    (hg : s.game_over = false)
    (hb : (0 ≤ (newHeadOf s.snake (effDir s.direction s.next_direction)).1 ∧
           (newHeadOf s.snake (effDir s.direction s.next_direction)).1 < GRID_WIDTH) ∧
          (0 ≤ (newHeadOf s.snake (effDir s.direction s.next_direction)).2 ∧
           (newHeadOf s.snake (effDir s.direction s.next_direction)).2 < GRID_HEIGHT))
    (hm : newHeadOf s.snake (effDir s.direction s.next_direction) ∉ s.snake)
    (hf : newHeadOf s.snake (effDir s.direction s.next_direction) ≠ s.food) :
    tick s draws =
      some { s with
               snake := (s.snake ++ [newHeadOf s.snake (effDir s.direction s.next_direction)]).drop 1,
               direction := effDir s.direction s.next_direction } := by
  simp only [tick, hg, Bool.false_eq_true, if_false]
  rw [if_neg (not_not_intro hb), if_neg hm, if_neg hf]

/-! ### Claim theorems -/

/-- Claim C1 (code behaviour at the failing input): in `c1State` the snake
does not eat (the new head `(5,5)` is not the food cell) and the new head
is exactly the cell the tail (`snake[0] = (5,5)`) vacates this tick; yet
both variants flag a self-collision and transition to GameOver with the
snake unchanged, instead of letting the tick succeed as the claim states. -/
theorem C1_tail_cell_move_rejected_by_code :
    newHeadOf c1State.snake (effDir c1State.direction c1State.next_direction) = (5, 5) ∧
    c1State.snake.head? = some (5, 5) ∧
    ((5 : Int), (5 : Int)) ≠ c1State.food ∧
    tick c1State [] = some { c1State with direction := (-1, 0), game_over := true } ∧
    tickV11 c1StateV11 [] = some { c1StateV11 with direction := (-1, 0), game_over := true } := by
  decide

/-- Claim C3: a tick whose computed new head is out of bounds or occupied
transitions Playing→GameOver leaving snake, food and score unmodified (the
attempted head is never appended), and any later tick taken in GameOver
returns the state entirely unchanged. -/
theorem C3_collision_freezes_state (s : GameState) (draws : List Pos)
    (hg : s.game_over = false)
    (hcol : ¬((0 ≤ (newHeadOf s.snake (effDir s.direction s.next_direction)).1 ∧
               (newHeadOf s.snake (effDir s.direction s.next_direction)).1 < GRID_WIDTH) ∧
              (0 ≤ (newHeadOf s.snake (effDir s.direction s.next_direction)).2 ∧
               (newHeadOf s.snake (effDir s.direction s.next_direction)).2 < GRID_HEIGHT)) ∨
           newHeadOf s.snake (effDir s.direction s.next_direction) ∈ s.snake) :
    tick s draws =
      some { s with direction := effDir s.direction s.next_direction,
                    game_over := true } ∧
    (∀ (s2 : GameState) (draws2 : List Pos), s2.game_over = true →
        tick s2 draws2 = some s2) :=
  ⟨tick_of_collision s draws hg hcol,
   fun s2 draws2 h2 => tick_of_gameOver s2 draws2 h2⟩

/-- Claim C3, witness: the wall collision of `c3State` (new head `(-1,5)`)
sets GameOver and leaves snake, food and score as they were. -/
theorem C3_collision_freezes_state_witness :
    tick c3State [] =
      some { c3State with direction := effDir c3State.direction c3State.next_direction,
                          game_over := true } :=
  (C3_collision_freezes_state c3State [] rfl (Or.inl (by decide))).1

/-- Claim C4: when the pending direction is the exact additive inverse of
the committed direction, the committed direction is kept unchanged and the
head advances along it. -/
theorem C4_reversal_attempt_dropped (s : GameState)
    (hg : s.game_over = false)
    (hrev : s.next_direction = (-s.direction.1, -s.direction.2)) :
    effDir s.direction s.next_direction = s.direction ∧
    newHeadOf s.snake (effDir s.direction s.next_direction) =
      ((headOf s.snake).1 + s.direction.1, (headOf s.snake).2 + s.direction.2) := by
  have hc : (s.next_direction.1 * -1, s.next_direction.2 * -1) = s.direction := by
    rw [hrev]
    simp
  have he : effDir s.direction s.next_direction = s.direction := by
    unfold effDir
    rw [if_neg (not_not_intro hc)]
  refine ⟨he, ?_⟩
  rw [he]
  rfl

/-- Claim C4, witness: in `c4State` (moving right, pending left) the
effective direction stays `(1, 0)` and the head advances rightward. -/
theorem C4_reversal_attempt_dropped_witness :
    effDir c4State.direction c4State.next_direction = c4State.direction ∧
    newHeadOf c4State.snake (effDir c4State.direction c4State.next_direction) =
      ((headOf c4State.snake).1 + c4State.direction.1,
       (headOf c4State.snake).2 + c4State.direction.2) :=
  C4_reversal_attempt_dropped c4State rfl (by decide)

/-- Claim C6: a restart taken in GameOver rebuilds exactly the initial
construction — initial snake, direction `(-1, 0)`, score `0`, mode Playing,
food resampled disjoint from the reset snake — while a restart in any other
mode leaves the state unchanged. -/
theorem C6_restart_resets_to_init (s : GameState) (draws : List Pos) (f : Pos) :
    (s.game_over = true → random_food_position draws initSnake = some f →
        restart s draws = some (initState f) ∧ f ∉ initSnake ∧
        (initState f).snake = initSnake ∧ (initState f).direction = (-1, 0) ∧
        (initState f).next_direction = (-1, 0) ∧ (initState f).score = 0 ∧
        (initState f).food = f ∧ (initState f).game_over = false) ∧
    (s.game_over = false → restart s draws = some s) := by
  constructor
  · intro hg hfind
    have hmem : f ∉ initSnake := by
      have h1 := List.find?_some (show List.find?
          (fun p => decide (p ∉ initSnake)) draws = some f from hfind)
      simpa using h1
    refine ⟨?_, hmem, rfl, rfl, rfl, rfl, rfl, rfl⟩
    simp [restart, hg, hfind]
  · intro hg
    simp [restart, hg]

/-- Claim C6, witness: restarting the game-over state `c6State` with draw
`(0, 0)` yields exactly `initState (0, 0)`, and a restart in the in-play
state `c4State` changes nothing. -/
theorem C6_restart_resets_to_init_witness :
    restart c6State [((0 : Int), (0 : Int))] = some (initState (0, 0)) ∧
    restart c4State [((0 : Int), (0 : Int))] = some c4State :=
  ⟨((C6_restart_resets_to_init c6State [(0, 0)] (0, 0)).1 rfl (by decide)).1,
   (C6_restart_resets_to_init c4State [(0, 0)] (0, 0)).2 rfl⟩

/-- Claim C9: the two variants' collision tests agree — checking walls
first and then self-occupancy (`super_snake.py`) equals checking
self-occupancy first and then each wall bound (`super_snake_V1.1.py`),
for every snake whose segments lie within the grid. -/
theorem C9_collision_checks_equivalent (new_head : Pos) (snake : List Pos)
    (hb : ∀ p ∈ snake,
        (0 ≤ p.1 ∧ p.1 < GRID_WIDTH) ∧ (0 ≤ p.2 ∧ p.2 < GRID_HEIGHT)) :
    collisionV1 new_head snake = collisionV11 new_head snake := by
  rcases Decidable.em (new_head ∈ snake) with hm | hm <;>
  rcases Decidable.em (0 ≤ new_head.1 ∧ new_head.1 < GRID_WIDTH) with hx | hx <;>
  rcases Decidable.em (0 ≤ new_head.2 ∧ new_head.2 < GRID_HEIGHT) with hy | hy <;>
  simp [collisionV1, collisionV11, hm, hx, hy]

/-- Claim C9, witness: both collision flags agree on the out-of-bounds
head `(-1, 0)` against the in-bounds snake `[(2, 2)]`. -/
theorem C9_collision_checks_equivalent_witness :
    collisionV1 (-1, 0) [((2 : Int), (2 : Int))] =
      collisionV11 (-1, 0) [((2 : Int), (2 : Int))] :=
  C9_collision_checks_equivalent (-1, 0) [(2, 2)] (by decide)

/-- Every in-bounds position is a cell of `fullGrid`. -/
theorem mem_fullGrid (p : Pos)
    (h : (0 ≤ p.1 ∧ p.1 < GRID_WIDTH) ∧ (0 ≤ p.2 ∧ p.2 < GRID_HEIGHT)) :
    p ∈ fullGrid := by
  obtain ⟨x, y⟩ := p
  obtain ⟨⟨hx0, hxW⟩, hy0, hyH⟩ := h
  have hx0' : 0 ≤ x := hx0
  have hxW' : x < 30 := hxW
  have hy0' : 0 ≤ y := hy0
  have hyH' : y < 30 := hyH
  unfold fullGrid
  refine List.mem_flatMap.mpr ⟨x.toNat, List.mem_range.mpr (by omega), ?_⟩
  refine List.mem_map.mpr ⟨y.toNat, List.mem_range.mpr (by omega), ?_⟩
  rw [Int.toNat_of_nonneg hx0', Int.toNat_of_nonneg hy0']

/-- Claim C2: on a collision-free Playing tick the new head is appended;
if it equals the food, the tail is kept (length grows by exactly 1), the
score grows by exactly 1, and the replacement food is outside the
post-move snake; otherwise the tail is popped and the length is
unchanged. -/
theorem C2_noncollision_move_rules (s : GameState) (draws : List Pos)
    (hg : s.game_over = false)
    (hb : (0 ≤ (newHeadOf s.snake (effDir s.direction s.next_direction)).1 ∧
           (newHeadOf s.snake (effDir s.direction s.next_direction)).1 < GRID_WIDTH) ∧
          (0 ≤ (newHeadOf s.snake (effDir s.direction s.next_direction)).2 ∧
           (newHeadOf s.snake (effDir s.direction s.next_direction)).2 < GRID_HEIGHT))
    (hm : newHeadOf s.snake (effDir s.direction s.next_direction) ∉ s.snake) :
    (∀ f : Pos, newHeadOf s.snake (effDir s.direction s.next_direction) = s.food →
        random_food_position draws
          (s.snake ++ [newHeadOf s.snake (effDir s.direction s.next_direction)]) = some f →
        tick s draws =
          some { s with
                   snake := s.snake ++ [newHeadOf s.snake (effDir s.direction s.next_direction)],
                   direction := effDir s.direction s.next_direction,
                   food := f, score := s.score + 1 } ∧
        f ∉ s.snake ++ [newHeadOf s.snake (effDir s.direction s.next_direction)] ∧
        (s.snake ++ [newHeadOf s.snake (effDir s.direction s.next_direction)]).length =
          s.snake.length + 1) ∧
    (newHeadOf s.snake (effDir s.direction s.next_direction) ≠ s.food →
        tick s draws =
          some { s with
                   snake := (s.snake ++ [newHeadOf s.snake (effDir s.direction s.next_direction)]).drop 1,
                   direction := effDir s.direction s.next_direction } ∧
        ((s.snake ++ [newHeadOf s.snake (effDir s.direction s.next_direction)]).drop 1).length =
          s.snake.length) := by
  constructor
  · intro f hf hfind
    refine ⟨tick_of_eat s draws f hg hb hm hf hfind, ?_, by simp⟩
    have h1 := List.find?_some (show List.find?
        (fun p => decide (p ∉ s.snake ++
          [newHeadOf s.snake (effDir s.direction s.next_direction)])) draws = some f from hfind)
    simpa using h1
  · intro hf
    exact ⟨tick_of_advance s draws hg hb hm hf, by simp⟩

/-- Claim C2, witness: the eat tick of `c2State` (head lands on the food
at `(6,5)`, draw `(9,9)`) grows the snake and score by one and places the
food outside the snake; the plain move tick of `c4State` keeps the
length. -/
theorem C2_noncollision_move_rules_witness :
    (tick c2State [((9 : Int), (9 : Int))] =
      some { c2State with
               snake := c2State.snake ++
                 [newHeadOf c2State.snake (effDir c2State.direction c2State.next_direction)],
               direction := effDir c2State.direction c2State.next_direction,
               food := (9, 9), score := c2State.score + 1 } ∧
     ((9 : Int), (9 : Int)) ∉ c2State.snake ++
       [newHeadOf c2State.snake (effDir c2State.direction c2State.next_direction)] ∧
     (c2State.snake ++
       [newHeadOf c2State.snake (effDir c2State.direction c2State.next_direction)]).length =
       c2State.snake.length + 1) ∧
    (tick c4State [] =
      some { c4State with
               snake := (c4State.snake ++
                 [newHeadOf c4State.snake (effDir c4State.direction c4State.next_direction)]).drop 1,
               direction := effDir c4State.direction c4State.next_direction } ∧
     ((c4State.snake ++
       [newHeadOf c4State.snake (effDir c4State.direction c4State.next_direction)]).drop 1).length =
       c4State.snake.length) :=
  ⟨(C2_noncollision_move_rules c2State [(9, 9)] rfl (by decide) (by decide)).1
      (9, 9) (by decide) (by decide),
   (C2_noncollision_move_rules c4State [] rfl (by decide) (by decide)).2 (by decide)⟩

/-- Claim C7 (code behaviour): when the snake occupies every cell of the
grid, the rejection loop of `random_food_position` never returns — for
every stream of in-range draws, no draw escapes the occupancy test — so
the code loops forever, contradicting the claim's termination
requirement. -/
theorem C7_full_grid_placement_never_returns (draws : List Pos)
    (h : ∀ p ∈ draws,
        (0 ≤ p.1 ∧ p.1 < GRID_WIDTH) ∧ (0 ≤ p.2 ∧ p.2 < GRID_HEIGHT)) :
    random_food_position draws fullGrid = none := by
  unfold random_food_position
  rw [List.find?_eq_none]
  intro p hp hdec
  exact (of_decide_eq_true hdec) (mem_fullGrid p (h p hp))

/-- Claim C7, witness: three concrete in-range draws all fail against the
full grid. -/
theorem C7_full_grid_placement_never_returns_witness :
    random_food_position
      [((0 : Int), (0 : Int)), ((5 : Int), (17 : Int)), ((29 : Int), (29 : Int))]
      fullGrid = none :=
  C7_full_grid_placement_never_returns
    [(0, 0), (5, 17), (29, 29)] (by decide)

/-- Claim C8, counterexample: in `super_snake_V1.1.py`, with committed
direction down `(0, 1)`, the batches `[left, up]` and `[right, up]` share
the same last directional key (`up`) yet leave different pending
directions — the `up` handler is skipped because `direction == (0, 1)` —
so the pending direction is not determined solely by the last directional
key of the batch. -/
theorem C8_last_key_counterexample :
    pendingV11 (0, 1) [Key.left, Key.up] (0, 1) = (-1, 0) ∧
    pendingV11 (0, 1) [Key.right, Key.up] (0, 1) = (1, 0) ∧
    pendingV11 (0, 1) [Key.left, Key.up] (0, 1) ≠ dirOf Key.up := by
  decide

/-- Claim C8, amended: in `super_snake.py` the last directional key of a
batch alone determines the pending direction (earlier keys and the prior
pending value are superseded, regardless of the committed direction); in
`super_snake_V1.1.py` this holds only when the committed direction is not
the exact reverse of the last key's vector — otherwise that key is ignored
and the batch without it decides. -/
theorem C8_last_key_of_batch (pre : List Key) (k : Key) (nd d : Pos)
    (hk : k ≠ Key.other) :
    pendingV1 (pre ++ [k]) nd = dirOf k ∧
    (d ≠ (-(dirOf k).1, -(dirOf k).2) →
        pendingV11 d (pre ++ [k]) nd = dirOf k) ∧
    (d = (-(dirOf k).1, -(dirOf k).2) →
        pendingV11 d (pre ++ [k]) nd = pendingV11 d pre nd) := by
  have h1 : pendingV1 (pre ++ [k]) nd = keyStepV1 (pendingV1 pre nd) k := by
    unfold pendingV1
    rw [List.foldl_append]
    rfl
  have h2 : pendingV11 d (pre ++ [k]) nd =
      keyStepV11 d (pendingV11 d pre nd) k := by
    unfold pendingV11
    rw [List.foldl_append]
    rfl
  refine ⟨?_, ?_, ?_⟩
  · rw [h1]
    cases k
    case up => rfl
    case down => rfl
    case left => rfl
    case right => rfl
    case other => exact absurd rfl hk
  · intro hd
    rw [h2]
    cases k
    case up =>
        have hd' : d ≠ ((0 : Int), (1 : Int)) := by simpa using hd
        simp [keyStepV11, dirOf, hd']
    case down =>
        have hd' : d ≠ ((0 : Int), (-1 : Int)) := by simpa using hd
        simp [keyStepV11, dirOf, hd']
    case left =>
        have hd' : d ≠ ((1 : Int), (0 : Int)) := by simpa using hd
        simp [keyStepV11, dirOf, hd']
    case right =>
        have hd' : d ≠ ((-1 : Int), (0 : Int)) := by simpa using hd
        simp [keyStepV11, dirOf, hd']
    case other => exact absurd rfl hk
  · intro hd
    rw [h2]
    cases k
    case up =>
        have hd' : d = ((0 : Int), (1 : Int)) := by simpa using hd
        simp [keyStepV11, hd']
    case down =>
        have hd' : d = ((0 : Int), (-1 : Int)) := by simpa using hd
        simp [keyStepV11, hd']
    case left =>
        have hd' : d = ((1 : Int), (0 : Int)) := by simpa using hd
        simp [keyStepV11, hd']
    case right =>
        have hd' : d = ((-1 : Int), (0 : Int)) := by simpa using hd
        simp [keyStepV11, hd']
    case other => exact absurd rfl hk

/-- Claim C8, witness: with batch `[left] ++ [up]`, the V1 pending
direction is `up`'s vector whatever came before; the V1.1 pending
direction also is when the committed direction is right, but with
committed direction down the `up` key is dropped and the batch `[left]`
decides. -/
theorem C8_last_key_of_batch_witness :
    pendingV1 ([Key.left] ++ [Key.up]) (1, 0) = dirOf Key.up ∧
    pendingV11 (1, 0) ([Key.left] ++ [Key.up]) (1, 0) = dirOf Key.up ∧
    pendingV11 (0, 1) ([Key.left] ++ [Key.up]) (1, 0) =
      pendingV11 (0, 1) [Key.left] (1, 0) :=
  ⟨(C8_last_key_of_batch [Key.left] Key.up (1, 0) (1, 0) (by decide)).1,
   (C8_last_key_of_batch [Key.left] Key.up (1, 0) (1, 0) (by decide)).2.1 (by decide),
   (C8_last_key_of_batch [Key.left] Key.up (1, 0) (0, 1) (by decide)).2.2 (by decide)⟩

/-- The product of a uniform draw in `[-1, 1]` with the shake amplitude
`SHAKE_INTENSITY * 0.12` lies in `[-12, 12]`. -/
theorem shake_product_bounds (r : ℚ) (hr1 : -1 ≤ r) (hr2 : r ≤ 1) :
    -12 ≤ r * shakeAmp ∧ r * shakeAmp ≤ 12 := by
  have hamp : shakeAmp = 12 := by norm_num [shakeAmp, SHAKE_INTENSITY]
  rw [hamp]
  constructor
  · nlinarith
  · nlinarith

/-- Claim C10: while the remaining shake time is positive each pixel
offset `int(uniform * amp)` is bounded by `SHAKE_INTENSITY * 0.12 = 12`
in absolute value; at remaining time `0` the offset is exactly `0`; and
the grid-logic output of a V1.1 frame (snake, food, score, direction)
does not depend on the frame's shake draws. -/
theorem C10_shake_offsets_bounded (t r : ℚ) (s : GameStateV11)
    (draws : List Pos) (dt rx ry rx2 ry2 : ℚ)
    (hr1 : -1 ≤ r) (hr2 : r ≤ 1) :
    (0 < t → |shakeOffset t r| ≤ 12) ∧
    (t = 0 → shakeOffset t r = 0) ∧
    (Option.map (fun out => (out.1.snake, out.1.food, out.1.score, out.1.direction))
        (frameV11 s draws dt rx ry) =
      Option.map (fun out => (out.1.snake, out.1.food, out.1.score, out.1.direction))
        (frameV11 s draws dt rx2 ry2)) := by
  obtain ⟨hq1, hq2⟩ := shake_product_bounds r hr1 hr2
  refine ⟨?_, ?_, ?_⟩
  · intro ht
    unfold shakeOffset truncQ
    rw [if_pos ht]
    split_ifs with hpos
    · rw [abs_of_nonneg (Int.floor_nonneg.mpr hpos)]
      have hc : (⌊r * shakeAmp⌋ : ℚ) ≤ 12 := le_trans (Int.floor_le _) hq2
      exact_mod_cast hc
    · have hle : r * shakeAmp ≤ 0 := le_of_lt (not_le.mp hpos)
      rw [abs_of_nonpos (Int.ceil_le.mpr (by exact_mod_cast hle))]
      have hc : (-12 : ℚ) ≤ (⌈r * shakeAmp⌉ : ℚ) := le_trans hq1 (Int.le_ceil _)
      have hc' : (-12 : Int) ≤ ⌈r * shakeAmp⌉ := by exact_mod_cast hc
      omega
  · intro ht
    simp [shakeOffset, ht]
  · cases htick : tickV11 s draws with
    | none => simp [frameV11, htick]
    | some s1 => simp [frameV11, htick]

/-- Claim C10, witness: the concrete offset at remaining time `1` with
the extreme draw `1` stays within 12 pixels, the offset vanishes at
remaining time `0`, and a concrete frame's grid-logic output is the same
under two different pairs of shake draws. -/
theorem C10_shake_offsets_bounded_witness :
    |shakeOffset 1 1| ≤ 12 ∧
    shakeOffset 0 1 = 0 ∧
    Option.map (fun out => (out.1.snake, out.1.food, out.1.score, out.1.direction))
        (frameV11 c1StateV11 [] 1 1 0) =
      Option.map (fun out => (out.1.snake, out.1.food, out.1.score, out.1.direction))
        (frameV11 c1StateV11 [] 1 (-1) 1) :=
  ⟨(C10_shake_offsets_bounded 1 1 c1StateV11 [] 1 1 0 (-1) 1
      (le_trans (neg_nonpos_of_nonneg zero_le_one) zero_le_one) le_rfl).1 one_pos,
   (C10_shake_offsets_bounded 0 1 c1StateV11 [] 1 1 0 (-1) 1
      (le_trans (neg_nonpos_of_nonneg zero_le_one) zero_le_one) le_rfl).2.1 rfl,
   (C10_shake_offsets_bounded 1 1 c1StateV11 [] 1 1 0 (-1) 1
      (le_trans (neg_nonpos_of_nonneg zero_le_one) zero_le_one) le_rfl).2.2⟩

/-- The initial snake satisfies the bounds/distinctness invariant. -/
theorem snakeInv_init : SnakeInv initSnake := by
  unfold SnakeInv
  exact ⟨by decide, by decide⟩

/-- Appending an in-bounds fresh head preserves the invariant. -/
theorem snakeInv_append (l : List Pos) (a : Pos)
    (hI : SnakeInv l)
    (hb : (0 ≤ a.1 ∧ a.1 < GRID_WIDTH) ∧ (0 ≤ a.2 ∧ a.2 < GRID_HEIGHT))
    (hm : a ∉ l) : SnakeInv (l ++ [a]) := by
  obtain ⟨hBnd, hNd⟩ := hI
  constructor
  · intro p hp
    rcases List.mem_append.mp hp with h | h
    · exact hBnd p h
    · rw [List.mem_singleton.mp h]
      exact hb
  · exact (List.Perm.nodup_iff (List.perm_append_singleton a l)).mpr
      (List.nodup_cons.mpr ⟨hm, hNd⟩)

/-- Popping the tail preserves the invariant. -/
theorem snakeInv_drop (l : List Pos) (hI : SnakeInv l) : SnakeInv (l.drop 1) := by
  obtain ⟨hBnd, hNd⟩ := hI
  exact ⟨fun p hp => hBnd p (List.mem_of_mem_drop hp),
    List.Nodup.sublist (List.drop_sublist 1 l) hNd⟩

/-- One `super_snake.py` tick preserves the snake invariant. -/
theorem snakeInv_tick (s s' : GameState) (draws : List Pos)
    (hI : SnakeInv s.snake) (ht : tick s draws = some s') :
    SnakeInv s'.snake := by
  by_cases hg : s.game_over = true
  · rw [tick_of_gameOver s draws hg] at ht
    simp only [Option.some.injEq] at ht
    subst ht
    exact hI
  · have hg' : s.game_over = false := by simpa using hg
    simp only [tick, hg', Bool.false_eq_true, if_false] at ht
    split at ht
    · simp only [Option.some.injEq] at ht
      subst ht
      exact hI
    · split at ht
      · simp only [Option.some.injEq] at ht
        subst ht
        exact hI
      · rename_i hb hmem
        have hb' : (0 ≤ (newHeadOf s.snake (effDir s.direction s.next_direction)).1 ∧
            (newHeadOf s.snake (effDir s.direction s.next_direction)).1 < GRID_WIDTH) ∧
            (0 ≤ (newHeadOf s.snake (effDir s.direction s.next_direction)).2 ∧
            (newHeadOf s.snake (effDir s.direction s.next_direction)).2 < GRID_HEIGHT) :=
          not_not.mp hb
        have happ : SnakeInv (s.snake ++
            [newHeadOf s.snake (effDir s.direction s.next_direction)]) :=
          snakeInv_append s.snake _ hI hb' hmem
        split at ht
        · cases hfind : random_food_position draws
              (s.snake ++ [newHeadOf s.snake (effDir s.direction s.next_direction)]) with
          | none =>
              rw [hfind] at ht
              cases ht
          | some f =>
              rw [hfind] at ht
              simp only [Option.some.injEq] at ht
              subst ht
              exact happ
        · simp only [Option.some.injEq] at ht
          subst ht
          exact snakeInv_drop _ happ

/-- A restart preserves the snake invariant. -/
theorem snakeInv_restart (s s' : GameState) (draws : List Pos)
    (hI : SnakeInv s.snake) (hr : restart s draws = some s') :
    SnakeInv s'.snake := by
  unfold restart at hr
  split at hr
  · cases hfind : random_food_position draws initSnake with
    | none =>
        rw [hfind] at hr
        cases hr
    | some f =>
        rw [hfind] at hr
        simp only [Option.some.injEq] at hr
        subst hr
        exact snakeInv_init
  · simp only [Option.some.injEq] at hr
    subst hr
    exact hI

/-- Claim C5: in every reachable state of the `super_snake.py` loop —
from the initial construction through any sequence of ticks, restarts and
event batches — every snake segment lies within the 30×30 grid bounds and
the segment positions are pairwise distinct. -/
theorem C5_reachable_snake_invariant (s : GameState) (h : Reachable s) :
    (∀ p ∈ s.snake,
        (0 ≤ p.1 ∧ p.1 < GRID_WIDTH) ∧ (0 ≤ p.2 ∧ p.2 < GRID_HEIGHT)) ∧
    s.snake.Nodup := by
  induction h with
  | init draws f hfind => exact snakeInv_init
  | tick_step s1 s2 draws h1 ht ih => exact snakeInv_tick s1 s2 draws ih ht
  | restart_step s1 s2 draws h1 hr ih => exact snakeInv_restart s1 s2 draws ih hr
  | key_step s1 ks h1 ih => exact ih

/-- Claim C5, witness: the initial state with food `(0, 0)` is reachable
and its snake is in bounds and self-overlap free. -/
theorem C5_reachable_snake_invariant_witness :
    (∀ p ∈ (initState (0, 0)).snake,
        (0 ≤ p.1 ∧ p.1 < GRID_WIDTH) ∧ (0 ≤ p.2 ∧ p.2 < GRID_HEIGHT)) ∧
    (initState (0, 0)).snake.Nodup :=
  C5_reachable_snake_invariant (initState (0, 0))
    (Reachable.init [((0 : Int), (0 : Int))] (0, 0) (by decide))

end SuperSnake
